import Mathlib

/-!
Verification of `src/js/accessibility.js` (AccessibilityManager).

The file shallowly embeds the three subsystems the claims touch:
* the form-validation subsystem (`validateField`, `updateSubmitButtonState`,
  `validateAndSubmitForm` and the blur/input listeners),
* the accessibility-panel subsystem (`openPanel`, `closePanel`, the
  tab-order MutationObserver installed by `setupPanelTabbing`),
* the preferences subsystem (`setTheme`, `setTextSize`, `setHighContrast`,
  `setReducedMotion`, `setupReducedMotion`, `loadUserPreferences`).

Strings are Lean `String`s; lengths count code points (JS counts UTF-16
units; the two agree on all values appearing in the claims and in the
rule table). DOM class lists are `List String` with DOMTokenList
semantics (`add` appends when absent, `remove` filters). `localStorage`
is an association list plus a flag that makes reads throw, modelling the
storage-read-failure scenario; exceptions are `Except Unit`.
-/

/-! ## JS string primitives -/

/-- The character class of the JS regex escape `\s` (ECMAScript WhiteSpace
and LineTerminator code points), restricted to the code points below
0x10000 that `String.prototype.trim` also strips. -/
def jsWhitespace (c : Char) : Bool :=
  c == ' ' || c == '\t' || c == '\n' || c == '\r' ||
  c == '\x0b' || c == '\x0c' || c == '\u00a0' || c == '\u1680' ||
  (0x2000 ≤ c.toNat && c.toNat ≤ 0x200a) ||
  c == '\u2028' || c == '\u2029' || c == '\u202f' || c == '\u205f' ||
  c == '\u3000' || c == '\ufeff'

/-- `String.prototype.trim` on the character list: strip `jsWhitespace`
from both ends. -/
def jsTrimList (l : List Char) : List Char :=
  ((l.dropWhile jsWhitespace).reverse.dropWhile jsWhitespace).reverse

/-- `value.trim()` from the source. -/
def jsTrim (s : String) : String :=
  String.mk (jsTrimList s.data)

/-- One character of the regex class `[^\s@]`. -/
def noWsNoAt (l : List Char) : Bool :=
  l.all (fun c => !(jsWhitespace c) && !(c == '@'))

/-- The email regex of the source, `^[^\s@]+@[^\s@]+\.[^\s@]+$` (used both
in `updateSubmitButtonState` and in `validateField`). A string matches
iff it decomposes as `A ++ "@" ++ B ++ "." ++ C` with `A`, `B`, `C`
nonempty and free of whitespace and `@`; since `A`, `B`, `C` exclude `@`
the `@` is unique, so `A` is everything before the first `@` and the
existence of the `B.C` split is exactly a `.` in the tail that is neither
its first nor its last character. -/
def emailRegexTest (s : String) : Bool :=
  let cs := s.data
  let pre := cs.takeWhile (fun c => !(c == '@'))
  let rest := cs.dropWhile (fun c => !(c == '@'))
  match rest with
  | [] => false
  | _ :: post =>
      !(pre.isEmpty) && noWsNoAt pre && noWsNoAt post &&
      ((post.drop 1).dropLast.contains '.')

/-! ## Field rule table (`validateField` switch, lines 347-389) -/

/-- The `switch (fieldName)` body of `validateField`: from the trimmed
value, the validity flag and the error message. A JS string is falsy
exactly when it is empty, so `!value` is the length-zero test. Fields
other than the three named ones fall through the switch unchanged
(`isValid = true`, empty message). -/
def validateFieldCore (fieldName rawValue : String) : Bool × String :=
  let value := jsTrim rawValue
  if fieldName == "name" then
    if value.length = 0 then (false, "Name is required")
    else if value.length < 2 then (false, "Name must be at least 2 characters long")
    else (true, "")
  else if fieldName == "email" then
    if value.length = 0 then (false, "Email is required")
    else if !(emailRegexTest value) then (false, "Please enter a valid email address")
    else (true, "")
  else if fieldName == "message" then
    if value.length = 0 then (false, "Message is required")
    else if value.length < 10 then (false, "Message must be at least 10 characters long")
    else (true, "")
  else (true, "")

/-! ## Submit gate (`updateSubmitButtonState`, lines 235-276) -/

/-- The per-field length bound of the gate:
`fieldId === 'message' ? 10 : 2`. -/
def fieldMin (fieldId : String) : Nat :=
  if fieldId == "message" then 10 else 2

/-- One iteration of the `requiredFields.forEach` body of
`updateSubmitButtonState` for a present field: `allFieldsValid` is
cleared when the trimmed value is empty or below the minimum length, or
when the field is the email field, nonempty, and fails the regex. -/
def fieldGate (fieldId raw : String) : Bool :=
  let value := jsTrim raw
  let lenFail : Bool :=
    decide (value.length = 0) || decide (value.length < fieldMin fieldId)
  let emailFail : Bool :=
    (fieldId == "email") && !(decide (value.length = 0)) && !(emailRegexTest value)
  !lenFail && !emailFail

/-! ## Form DOM state

`setupFormValidation` (lines 207-233) returns early when the contact
form or the submit button is missing, so the whole subsystem only runs
with both present; the model therefore keeps the submit button's state
as plain fields. Each of the three required fields is optional
(`document.getElementById` may return null), and a present field carries
its value together with the displayed error state (the `{field}Error`
element's text and `visible` class, and the field's `aria-invalid`
attribute — `setAttribute` stringifies the boolean it is given). -/

structure FieldState where
  value : String
  errorText : String
  errorVisible : Bool
  ariaInvalid : String
  deriving Repr, DecidableEq

structure ContactForm where
  nameField : Option FieldState
  emailField : Option FieldState
  messageField : Option FieldState
  submitDisabled : Bool
  submitLoading : Bool
  submitLabel : String
  submitReadyNote : Bool
  deriving Repr, DecidableEq

/-- `document.getElementById(fieldId)` for the three required fields. -/
def getField (f : ContactForm) (fieldId : String) : Option FieldState :=
  if fieldId == "name" then f.nameField
  else if fieldId == "email" then f.emailField
  else if fieldId == "message" then f.messageField
  else none

/-- Store back the (mutated) element looked up by `getField`. -/
def setField (f : ContactForm) (fieldId : String) (st : FieldState) : ContactForm :=
  if fieldId == "name" then { f with nameField := some st }
  else if fieldId == "email" then { f with emailField := some st }
  else if fieldId == "message" then { f with messageField := some st }
  else f

/-- `displayFieldError` (lines 391-398): write the message into the error
element, toggle its `visible` class on `!!message`, and set
`aria-invalid` to the stringified `!!message`. -/
def displayFieldError (st : FieldState) (message : String) : FieldState :=
  { st with
    errorText := message
    errorVisible := !(message == "")
    ariaInvalid := if message == "" then "false" else "true" }

/-- `clearFieldError` (lines 400-407): empty the error element, drop its
`visible` class, and force `aria-invalid` to the string `"false"`,
without consulting the field's value. -/
def clearFieldError (st : FieldState) : FieldState :=
  { st with errorText := "", errorVisible := false, ariaInvalid := "false" }

/-- `validateField` (lines 347-389) on a present field: compute the rule
table on the current value, render the outcome through
`displayFieldError`, and return the validity flag. The
`setTimeout(() => this.updateSubmitButtonState(), 0)` it also issues is
a zero-delay task; the call sites that observe it (`blurHandler`,
`validateAndSubmitForm`) sequence the recompute after their synchronous
part. -/
def validateField (fieldId : String) (st : FieldState) : Bool × FieldState :=
  let r := validateFieldCore fieldId st.value
  (r.1, displayFieldError st r.2)

/-- A present field's contribution to `allFieldsValid`; an absent field
is skipped by the `if (field)` guard and leaves the flag untouched. -/
def optFieldGate (fieldId : String) (fld : Option FieldState) : Bool :=
  match fld with
  | none => true
  | some st => fieldGate fieldId st.value

/-- The `allFieldsValid` accumulator of `updateSubmitButtonState` after
the `forEach` over `['name', 'email', 'message']`. -/
def allFieldsValid (f : ContactForm) : Bool :=
  optFieldGate "name" f.nameField &&
  optFieldGate "email" f.emailField &&
  optFieldGate "message" f.messageField

/-- `updateSubmitButtonState` (lines 235-276): recompute the gate from
the current field values, set `submitBtn.disabled`, and attach or remove
the hidden `#submitReady` description node (and its `aria-describedby`
reference, tracked jointly as `submitReadyNote`). -/
def updateSubmitButtonState (f : ContactForm) : ContactForm :=
  let ok := allFieldsValid f
  { f with submitDisabled := !ok, submitReadyNote := ok }

/-- The `blur` listener of a required field (line 226): run
`validateField`, then the recompute it scheduled. -/
def blurHandler (f : ContactForm) (fieldId : String) : ContactForm :=
  match getField f fieldId with
  | none => f
  | some st => updateSubmitButtonState (setField f fieldId (validateField fieldId st).2)

/-- The `input` listener of a required field (lines 227-230):
`clearFieldError` then `updateSubmitButtonState`. -/
def inputHandler (f : ContactForm) (fieldId : String) : ContactForm :=
  match getField f fieldId with
  | none => f
  | some st => updateSubmitButtonState (setField f fieldId (clearFieldError st))

/-! ## Submission flow (`validateAndSubmitForm`, lines 409-464) -/

/-- Outcome of the synchronous prefix of `validateAndSubmitForm`: the
form state after re-validation, whether the correction announcement was
made, which field received focus, and whether the loading state and the
(simulated) transport were started. -/
structure SubmitResult where
  form : ContactForm
  announcedCorrection : Bool
  focusedField : Option String
  loadingStarted : Bool
  transportInvoked : Bool
  deriving Repr, DecidableEq

/-- One iteration of the `requiredFields.forEach` in
`validateAndSubmitForm`: `if (field && !this.validateField(field))
isFormValid = false` — an absent field leaves the flag untouched. -/
def validateFieldApply (fieldId : String) (f : ContactForm) : Bool × ContactForm :=
  match getField f fieldId with
  | none => (true, f)
  | some st =>
      let r := validateField fieldId st
      (r.1, setField f fieldId r.2)

/-- Does this (possibly absent) field currently carry
`aria-invalid="true"`? An absent element cannot match a selector. -/
def ariaFlagTrue (fld : Option FieldState) : Bool :=
  match fld with
  | none => false
  | some st => st.ariaInvalid == "true"

/-- `form.querySelector('[aria-invalid="true"]')` over the three fields
in document order (name, email, message). -/
def firstAriaInvalid (f : ContactForm) : Option String :=
  if ariaFlagTrue f.nameField then some "name"
  else if ariaFlagTrue f.emailField then some "email"
  else if ariaFlagTrue f.messageField then some "message"
  else none

/-- `validateAndSubmitForm`: re-validate the three fields (mutating the
displayed error states), and either abort — announcing the correction
request and focusing the first `aria-invalid="true"` field — or enter
the loading state (disable the button, add the `loading` class, swap the
label) and start the awaited transport stand-in. The model stops at the
transport invocation; the success/failure continuations and the
`finally` restoration are beyond every claim. -/
def validateAndSubmitForm (f : ContactForm) : SubmitResult :=
  let r1 := validateFieldApply "name" f
  let r2 := validateFieldApply "email" r1.2
  let r3 := validateFieldApply "message" r2.2
  let isFormValid := r1.1 && r2.1 && r3.1
  if isFormValid then
    { form := { r3.2 with submitDisabled := true, submitLoading := true,
                          submitLabel := "Sending..." }
      announcedCorrection := false
      focusedField := none
      loadingStarted := true
      transportInvoked := true }
  else
    { form := r3.2
      announcedCorrection := true
      focusedField := firstAriaInvalid r3.2
      loadingStarted := false
      transportInvoked := false }

/-- Is some present field invalid under the rule table? (The property the
abort branch of `validateAndSubmitForm` reacts to.) -/
def fieldRuleInvalid (fieldId : String) (fld : Option FieldState) : Bool :=
  match fld with
  | none => false
  | some st => !(validateFieldCore fieldId st.value).1

def anyPresentFieldInvalid (f : ContactForm) : Bool :=
  fieldRuleInvalid "name" f.nameField ||
  fieldRuleInvalid "email" f.emailField ||
  fieldRuleInvalid "message" f.messageField

/-- The first present field, in document order, whose value the rule
table rejects. -/
def firstRuleInvalid (f : ContactForm) : Option String :=
  if fieldRuleInvalid "name" f.nameField then some "name"
  else if fieldRuleInvalid "email" f.emailField then some "email"
  else if fieldRuleInvalid "message" f.messageField then some "message"
  else none

/-! ## Accessibility panel

`setupAccessibilityPanel` (lines 44-67) returns early when the panel or
its toggle is missing, so the subsystem runs only with both present.
The state carries the panel's `open` class, its `aria-hidden` attribute,
the toggle's `aria-expanded` attribute (attributes are absent or some
string), and the `tabindex` attribute of each interactive element that
`setupPanelTabbing` collected inside the panel
(`input, select, button:not(.accessibility-toggle)` — per the spec's DOM
contract these are exactly the panel's interactive controls). -/

structure PanelDom where
  openClass : Bool
  ariaHidden : Option String
  ariaExpanded : Option String
  tabindexes : List String
  deriving Repr, DecidableEq

/-- The code derives openness from `classList.contains('open')`
(line 96); there is no separately stored boolean. -/
def panelIsOpen (p : PanelDom) : Bool :=
  p.openClass

/-- The MutationObserver callback of `setupPanelTabbing` (lines 78-87),
as run for a mutation whose `attributeName` is `aria-hidden`: read the
attribute back (`getAttribute(...) === 'true'`; a null attribute is not
`'true'`), and set every collected element's `tabindex` to `-1` or `0`.
Mutations of other attributes are filtered out by the callback and never
reach this step. -/
def observerSync (p : PanelDom) : PanelDom :=
  let isHidden := p.ariaHidden == some "true"
  { p with tabindexes := p.tabindexes.map (fun _ => if isHidden then "-1" else "0") }

/-- `this.panel.setAttribute('aria-hidden', v)`: the observer watches the
panel's attributes, so the callback runs (as a queued microtask, before
any further event) right after the mutation. -/
def setPanelAriaHidden (p : PanelDom) (v : String) : PanelDom :=
  observerSync { p with ariaHidden := some v }

/-- The initial pass of `setupPanelTabbing` (lines 73-75): make the panel
content non-focusable. -/
def panelTabbingSetup (p : PanelDom) : PanelDom :=
  { p with tabindexes := p.tabindexes.map (fun _ => "-1") }

/-- `openPanel` (lines 127-141): add the `open` class, set
`aria-expanded="true"` on the toggle and `aria-hidden="false"` on the
panel (triggering the observer). The delayed focus move and the
announcement touch no modelled state. -/
def openPanel (p : PanelDom) : PanelDom :=
  setPanelAriaHidden { p with openClass := true, ariaExpanded := some "true" } "false"

/-- `closePanel` (lines 143-151): the inverse attribute and class
changes. -/
def closePanel (p : PanelDom) : PanelDom :=
  setPanelAriaHidden { p with openClass := false, ariaExpanded := some "false" } "true"

/-- `handleToggleClick` (lines 92-103): close when the `open` class is
present, open otherwise. -/
def handleToggleClick (p : PanelDom) : PanelDom :=
  if p.openClass then closePanel p else openPanel p

/-- The agreement of the four representations of panel state
(spec §3, PanelUIState invariant). -/
def panelConsistent (p : PanelDom) : Prop :=
  (panelIsOpen p = true ↔ p.openClass = true) ∧
  (panelIsOpen p = true ↔ p.ariaHidden = some "false") ∧
  (panelIsOpen p = true ↔ p.ariaExpanded = some "true")

/-! ## Preferences controller

State of the preferences subsystem: the `localStorage` contents (an
association list of string entries) with a flag making reads throw, the
two media-query signals, the document root's `data-theme` attribute and
class list, and the preference control widgets (each absent or carrying
its displayed state). -/

structure PrefState where
  storage : List (String × String)
  storageReadThrows : Bool
  prefersDark : Bool
  prefersReducedMotion : Bool
  docThemeAttr : Option String
  docClasses : List String
  textSizeSelect : Option String
  highContrastPressed : Option String
  reducedMotionPressed : Option String
  reducedMotionChecked : Option Bool
  themeTogglePressed : Option String
  footerThemeChecked : Option Bool
  deriving Repr, DecidableEq

/-- Lookup in the stored entries (first binding wins; `storeUpdate`
keeps keys unique). -/
def storeLookup : List (String × String) → String → Option String
  | [], _ => none
  | (k, v) :: rest, key => if k == key then some v else storeLookup rest key

/-- `localStorage.setItem`: overwrite the binding or append it. -/
def storeUpdate : List (String × String) → String → String → List (String × String)
  | [], key, v => [(key, v)]
  | (k, w) :: rest, key, v =>
      if k == key then (k, v) :: rest else (k, w) :: storeUpdate rest key v

/-- `localStorage.getItem`, which the failure scenario makes throw. -/
def lsGetItem (st : PrefState) (key : String) : Except Unit (Option String) :=
  if st.storageReadThrows then Except.error ()
  else Except.ok (storeLookup st.storage key)

/-- `localStorage.setItem` applied to the state. -/
def lsSetItem (st : PrefState) (key v : String) : PrefState :=
  { st with storage := storeUpdate st.storage key v }

/-- JS `String(boolean)`, what `setAttribute` and `setItem` store when
handed a boolean. -/
def boolString (b : Bool) : String :=
  if b then "true" else "false"

/-- `classList.add`: append the token when absent. -/
def classAdd (l : List String) (c : String) : List String :=
  if c ∈ l then l else l ++ [c]

/-- `classList.remove`: drop the token. -/
def classRemove (l : List String) (c : String) : List String :=
  l.filter (fun x => !(x == c))

/-- `classList.toggle(c, on)` with an explicit force flag. -/
def classToggle (l : List String) (c : String) (force : Bool) : List String :=
  if force then classAdd l c else classRemove l c

/-- `setTheme` (lines 341-345): set the document's `data-theme`
attribute, persist, announce (the announcement inserts a transient
live-region node, outside the modelled state). -/
def setTheme (st : PrefState) (theme : String) : PrefState :=
  lsSetItem { st with docThemeAttr := some theme } "theme" theme

/-- `setTextSize` (lines 320-327): clear both size classes, add
`text-${size}` unless the size is `normal`, persist, announce. -/
def setTextSize (st : PrefState) (size : String) : PrefState :=
  let cls := classRemove (classRemove st.docClasses "text-large") "text-extra-large"
  let cls := if size == "normal" then cls else classAdd cls ("text-" ++ size)
  lsSetItem { st with docClasses := cls } "textSize" size

/-- `setHighContrast` (lines 329-333). -/
def setHighContrast (st : PrefState) (enabled : Bool) : PrefState :=
  lsSetItem { st with docClasses := classToggle st.docClasses "high-contrast" enabled }
    "highContrast" (boolString enabled)

/-- `setReducedMotion` (lines 335-339). -/
def setReducedMotion (st : PrefState) (enabled : Bool) : PrefState :=
  lsSetItem { st with docClasses := classToggle st.docClasses "reduce-motion" enabled }
    "reducedMotion" (boolString enabled)

/-- Modelled from the spec: `detectSystemTheme` is called by
`loadUserPreferences` (line 540) but defined nowhere in the repository
source. Per spec §4.1 the theme's second resolution step is the
system-level media-query signal, so the model reads the
`prefers-color-scheme: dark` signal. -/
def detectSystemTheme (st : PrefState) : String :=
  if st.prefersDark then "dark" else "light"

/-- Modelled from the spec: `updateThemeControls` is called by
`loadUserPreferences` (lines 555 and 576) but defined nowhere in the
repository source. Per spec §4.1 it synchronizes the theme UI control
widgets (the pressed-state attribute of the panel theme toggle and the
checked state of the legacy footer checkbox, when present) to the given
theme without re-triggering the setters. -/
def updateThemeControls (st : PrefState) (theme : String) : PrefState :=
  { st with
    themeTogglePressed := st.themeTogglePressed.map (fun _ => boolString (theme == "dark"))
    footerThemeChecked := st.footerThemeChecked.map (fun _ => theme == "dark") }

/-- The JS `||` fallback on a storage read result: both `null` and the
empty string are falsy. -/
def jsStringOr (v : Option String) (dflt : String) : String :=
  match v with
  | none => dflt
  | some s => if s == "" then dflt else s

/-- The `try` body of `loadUserPreferences` (lines 538-570). All four
storage reads precede every mutation, exactly as in the source, so a
read failure aborts before any state change. -/
def loadPrefsBody (st : PrefState) : Except Unit PrefState := do
  let systemTheme := detectSystemTheme st
  let themeItem ← lsGetItem st "theme"
  let textSizeItem ← lsGetItem st "textSize"
  let highContrastItem ← lsGetItem st "highContrast"
  let reducedMotionItem ← lsGetItem st "reducedMotion"
  let savedTheme := jsStringOr themeItem systemTheme
  let savedTextSize := jsStringOr textSizeItem "normal"
  let savedHighContrast := highContrastItem == some "true"
  let savedReducedMotion := reducedMotionItem == some "true"
  let st1 := setTheme st savedTheme
  let st2 := setTextSize st1 savedTextSize
  let st3 := setHighContrast st2 savedHighContrast
  let st4 := setReducedMotion st3 savedReducedMotion
  let st5 := updateThemeControls st4 savedTheme
  let st6 := { st5 with textSizeSelect := st5.textSizeSelect.map (fun _ => savedTextSize) }
  let st7 := { st6 with highContrastPressed :=
                 st6.highContrastPressed.map (fun _ => boolString savedHighContrast) }
  let st8 := { st7 with reducedMotionPressed :=
                 st7.reducedMotionPressed.map (fun _ => boolString savedReducedMotion) }
  Except.ok st8

/-- `loadUserPreferences` (lines 537-578): the `try` body, with the
`catch` falling back to the dark theme and re-syncing the theme
controls. A normal return is `Except.ok`; an `Except.error` result would
mean an exception escaping the method. -/
def loadUserPreferences (st : PrefState) : Except Unit PrefState :=
  match loadPrefsBody st with
  | Except.ok st1 => Except.ok st1
  | Except.error _ => Except.ok (updateThemeControls (setTheme st "dark") "dark")

/-- The startup part of `setupReducedMotion` (lines 298-308): when the
`prefers-reduced-motion: reduce` query matches, check the checkbox (if
present) and apply `setReducedMotion(true)` — which also persists the
entry. The change listener it installs reacts to later media-query
changes only. -/
def setupReducedMotion (st : PrefState) : PrefState :=
  if st.prefersReducedMotion then
    setReducedMotion
      { st with reducedMotionChecked := st.reducedMotionChecked.map (fun _ => true) } true
  else st

/-- The preference-relevant part of `initializeComponents` (lines 29-42):
`setupReducedMotion` runs before `loadUserPreferences`; the other setup
steps do not touch preference state. -/
def startupPrefs (st : PrefState) : Except Unit PrefState :=
  loadUserPreferences (setupReducedMotion st)

/-- The text-size style classes of the document root (the two classes
`setTextSize` manages). -/
def sizeClasses (l : List String) : List String :=
  l.filter (fun c => c == "text-large" || c == "text-extra-large")

/-- The state `loadPrefsBody` produces when no read throws, written with
the reads inlined; `loadPrefsBody_ok` proves the correspondence. -/
def loadPrefsApplied (st : PrefState) : PrefState :=
  let systemTheme := detectSystemTheme st
  let savedTheme := jsStringOr (storeLookup st.storage "theme") systemTheme
  let savedTextSize := jsStringOr (storeLookup st.storage "textSize") "normal"
  let savedHighContrast := storeLookup st.storage "highContrast" == some "true"
  let savedReducedMotion := storeLookup st.storage "reducedMotion" == some "true"
  let st1 := setTheme st savedTheme
  let st2 := setTextSize st1 savedTextSize
  let st3 := setHighContrast st2 savedHighContrast
  let st4 := setReducedMotion st3 savedReducedMotion
  let st5 := updateThemeControls st4 savedTheme
  let st6 := { st5 with textSizeSelect := st5.textSizeSelect.map (fun _ => savedTextSize) }
  let st7 := { st6 with highContrastPressed :=
                 st6.highContrastPressed.map (fun _ => boolString savedHighContrast) }
  { st7 with reducedMotionPressed :=
      st7.reducedMotionPressed.map (fun _ => boolString savedReducedMotion) }

/-! ## Concrete states used by witnesses and counterexamples -/

/-- A fresh present field carrying a given value. -/
def freshField (v : String) : FieldState :=
  { value := v, errorText := "", errorVisible := false, ariaInvalid := "false" }

/-- A contact form with all three fields present and given values, as
left by `setupFormValidation` before any interaction. -/
def formWithValues (n e m : String) : ContactForm :=
  { nameField := some (freshField n)
    emailField := some (freshField e)
    messageField := some (freshField m)
    submitDisabled := true
    submitLoading := false
    submitLabel := "Send Message"
    submitReadyNote := false }

/-- The spec's abort scenario: name "Al" (valid), email "bad" (invalid),
message "short" (invalid). -/
def c7Form : ContactForm := formWithValues "Al" "bad" "short"

/-- A name field holding the one-character value "x" that the blur pass
has just marked invalid. -/
def c9Field : FieldState :=
  { value := "x"
    errorText := "Name must be at least 2 characters long"
    errorVisible := true
    ariaInvalid := "true" }

/-- A form whose name field is `c9Field` (email and message elements
absent). -/
def c9Form : ContactForm :=
  { nameField := some c9Field
    emailField := none
    messageField := none
    submitDisabled := true
    submitLoading := false
    submitLabel := "Send Message"
    submitReadyNote := false }

/-- A preferences state whose storage reads throw. -/
def c1St : PrefState :=
  { storage := [("theme", "light")]
    storageReadThrows := true
    prefersDark := false
    prefersReducedMotion := false
    docThemeAttr := some "light"
    docClasses := []
    textSizeSelect := some "normal"
    highContrastPressed := some "false"
    reducedMotionPressed := some "false"
    reducedMotionChecked := some false
    themeTogglePressed := some "false"
    footerThemeChecked := some false }

/-- A preferences state with stale size classes on the document root. -/
def c4St : PrefState :=
  { storage := []
    storageReadThrows := false
    prefersDark := true
    prefersReducedMotion := false
    docThemeAttr := none
    docClasses := ["text-large", "keyboard-navigation"]
    textSizeSelect := some "normal"
    highContrastPressed := some "false"
    reducedMotionPressed := some "false"
    reducedMotionChecked := some false
    themeTogglePressed := some "false"
    footerThemeChecked := some false }

/-- A startup state with empty storage, a light system theme and a
reduced-motion system signal. -/
def c8St : PrefState :=
  { storage := []
    storageReadThrows := false
    prefersDark := false
    prefersReducedMotion := true
    docThemeAttr := none
    docClasses := ["high-contrast"]
    textSizeSelect := some "normal"
    highContrastPressed := some "false"
    reducedMotionPressed := some "false"
    reducedMotionChecked := some false
    themeTogglePressed := some "false"
    footerThemeChecked := some false }

/-! ## Helper lemmas -/

theorem validateFieldCore_valid_iff (id v : String) :
    (validateFieldCore id v).1 = true ↔ (validateFieldCore id v).2 = "" := by
  unfold validateFieldCore
  dsimp only
  split_ifs <;> decide

theorem fieldGate_name_iff (raw : String) :
    fieldGate "name" raw = true ↔ 2 ≤ (jsTrim raw).length := by
  have h1 : fieldMin "name" = 2 := rfl
  have h2 : (("name" : String) == "email") = false := rfl
  simp only [fieldGate, h1, h2, Bool.false_and, Bool.not_false, Bool.and_true,
    Bool.not_eq_true', Bool.or_eq_false_iff, decide_eq_false_iff_not]
  omega

theorem fieldGate_message_iff (raw : String) :
    fieldGate "message" raw = true ↔ 10 ≤ (jsTrim raw).length := by
  have h1 : fieldMin "message" = 10 := rfl
  have h2 : (("message" : String) == "email") = false := rfl
  simp only [fieldGate, h1, h2, Bool.false_and, Bool.not_false, Bool.and_true,
    Bool.not_eq_true', Bool.or_eq_false_iff, decide_eq_false_iff_not]
  omega

theorem fieldGate_email_iff (raw : String) :
    fieldGate "email" raw = true ↔
      2 ≤ (jsTrim raw).length ∧ emailRegexTest (jsTrim raw) = true := by
  have h1 : fieldMin "email" = 2 := rfl
  have h2 : (("email" : String) == "email") = true := rfl
  cases hE : emailRegexTest (jsTrim raw) <;>
    simp [fieldGate, h1, h2, hE] <;> omega

/-! ## Claim theorems -/

/-- Claim C3: `validateField` on the email field returns true for the
value `user@example.com` and false for each of `user@`,
`user example.com`, and the empty string. -/
theorem validateField_email_examples :
    (validateField "email" (freshField "user@example.com")).1 = true ∧
    (validateField "email" (freshField "user@")).1 = false ∧
    (validateField "email" (freshField "user example.com")).1 = false ∧
    (validateField "email" (freshField "")).1 = false := by
  decide

/-- Claim C5: after every panel open or close transition (also via the
toggle click handler) the four representations of panel state agree: the
panel is open iff the `open` class is present, iff `aria-hidden` is
`"false"`, iff the toggle's `aria-expanded` is `"true"`. -/
theorem panel_transitions_consistent (p : PanelDom) :
    panelConsistent (openPanel p) ∧ panelConsistent (closePanel p) ∧
    panelConsistent (handleToggleClick p) := by
  have ho : ∀ q : PanelDom, panelConsistent (openPanel q) := by
    intro q
    simp [openPanel, setPanelAriaHidden, observerSync, panelConsistent, panelIsOpen]
  have hc : ∀ q : PanelDom, panelConsistent (closePanel q) := by
    intro q
    simp [closePanel, setPanelAriaHidden, observerSync, panelConsistent, panelIsOpen]
  refine ⟨ho p, hc p, ?_⟩
  unfold handleToggleClick
  split_ifs
  · exact hc p
  · exact ho p

/-- Claim C6: immediately after a call to `openPanel` every interactive
element inside the panel has `tabindex` `0`, and immediately after
`closePanel` every such element has `tabindex` `-1` — the sync runs off
the observed `aria-hidden` mutation, so it fires for programmatic calls
as well. -/
theorem panel_tabindex_follows_state (p : PanelDom) :
    (openPanel p).tabindexes.all (fun t => t == "0") = true ∧
    (closePanel p).tabindexes.all (fun t => t == "-1") = true := by
  constructor
  · simp [openPanel, setPanelAriaHidden, observerSync, List.all_eq_true]
  · simp [closePanel, setPanelAriaHidden, observerSync, List.all_eq_true]

/-- Claim C2: with all three fields present, after the submit-gate
recompute the submit button is enabled (not disabled) iff the trimmed
name has length at least 2, the trimmed email has length at least 2 and
matches the email pattern, and the trimmed message has length at least
10. -/
theorem submit_gate_iff_rules (n e m : String) :
    (updateSubmitButtonState (formWithValues n e m)).submitDisabled = false ↔
      (2 ≤ (jsTrim n).length ∧
       (2 ≤ (jsTrim e).length ∧ emailRegexTest (jsTrim e) = true) ∧
       10 ≤ (jsTrim m).length) := by
  have h : (updateSubmitButtonState (formWithValues n e m)).submitDisabled
      = !((fieldGate "name" n && fieldGate "email" e) && fieldGate "message" m) := rfl
  simp only [h, Bool.not_eq_false', Bool.and_eq_true,
    fieldGate_name_iff, fieldGate_email_iff, fieldGate_message_iff]
  tauto

/-- Claim C10: in the submit-gate recompute a required field whose
element is absent imposes no constraint — the gate is enabled exactly
when every field that is present passes its rule, whichever subset of
the three elements exists. -/
theorem missing_field_imposes_no_constraint (nf ef mf : Option FieldState)
    (d l : Bool) (lab : String) (r : Bool) :
    (updateSubmitButtonState ⟨nf, ef, mf, d, l, lab, r⟩).submitDisabled = false ↔
      ((∀ st ∈ nf, 2 ≤ (jsTrim st.value).length) ∧
       (∀ st ∈ ef, 2 ≤ (jsTrim st.value).length ∧
                   emailRegexTest (jsTrim st.value) = true) ∧
       (∀ st ∈ mf, 10 ≤ (jsTrim st.value).length)) := by
  cases nf <;> cases ef <;> cases mf <;>
    simp [updateSubmitButtonState, allFieldsValid, optFieldGate,
      fieldGate_name_iff, fieldGate_email_iff, fieldGate_message_iff,
      Bool.and_eq_true]
  all_goals tauto

theorem getField_update (f : ContactForm) (id : String) :
    getField (updateSubmitButtonState f) id = getField f id := rfl

theorem getField_setField (f : ContactForm) (id : String) (v : FieldState)
    (hid : (getField f id).isSome = true) :
    getField (setField f id v) id = some v := by
  unfold getField setField at *
  by_cases h1 : (id == "name") = true <;>
    by_cases h2 : (id == "email") = true <;>
      by_cases h3 : (id == "message") = true <;>
        simp_all

/-- Claim C9 counterexample: an `input` event on the name field holding
the one-character value `x` leaves the displayed state reading valid
(`aria-invalid="false"`, empty error) even though the rule table rejects
`x` with an error message — the input listener clears instead of
recomputing. -/
theorem input_event_skips_rule_table :
    (inputHandler c9Form "name").nameField.map FieldState.ariaInvalid = some "false" ∧
    (inputHandler c9Form "name").nameField.map FieldState.errorText = some "" ∧
    (validateFieldCore "name" "x").1 = false ∧
    (validateFieldCore "name" "x").2 = "Name must be at least 2 characters long" := by
  decide

/-- Claim C9 (amended): on every blur event of a required field the
validation state is recomputed from the field's current value, so the
displayed error and `aria-invalid` flag reflect the rule table; on every
input event the displayed error state is unconditionally cleared (empty
message, `aria-invalid` forced to `"false"`) regardless of the current
value, and only the submit gate is recomputed. -/
theorem blur_revalidates_input_clears (f : ContactForm) (fieldId : String)
    (st : FieldState) (h : getField f fieldId = some st) :
    (getField (blurHandler f fieldId) fieldId).map FieldState.errorText
        = some (validateFieldCore fieldId st.value).2 ∧
    (getField (blurHandler f fieldId) fieldId).map FieldState.ariaInvalid
        = some (if (validateFieldCore fieldId st.value).2 == "" then "false" else "true") ∧
    ((validateFieldCore fieldId st.value).1 = true ↔
        (validateFieldCore fieldId st.value).2 = "") ∧
    (getField (inputHandler f fieldId) fieldId).map FieldState.errorText = some "" ∧
    (getField (inputHandler f fieldId) fieldId).map FieldState.ariaInvalid = some "false" := by
  have hsome : (getField f fieldId).isSome = true := by rw [h]; rfl
  unfold blurHandler inputHandler validateField
  rw [h]
  dsimp only
  rw [getField_update, getField_update, getField_setField f fieldId _ hsome,
    getField_setField f fieldId _ hsome]
  refine ⟨rfl, rfl, validateFieldCore_valid_iff fieldId st.value, rfl, rfl⟩

/-- Witness for the amended C9 at the concrete state `c9Form`. -/
theorem blur_revalidates_input_clears_case :
    getField c9Form "name" = some c9Field ∧
    ((getField (blurHandler c9Form "name") "name").map FieldState.errorText
        = some (validateFieldCore "name" c9Field.value).2 ∧
     (getField (blurHandler c9Form "name") "name").map FieldState.ariaInvalid
        = some (if (validateFieldCore "name" c9Field.value).2 == "" then "false" else "true") ∧
     ((validateFieldCore "name" c9Field.value).1 = true ↔
        (validateFieldCore "name" c9Field.value).2 = "") ∧
     (getField (inputHandler c9Form "name") "name").map FieldState.errorText = some "" ∧
     (getField (inputHandler c9Form "name") "name").map FieldState.ariaInvalid = some "false") :=
  ⟨by decide, blur_revalidates_input_clears c9Form "name" c9Field (by decide)⟩

theorem displayFlag_eq (id v : String) (st : FieldState) :
    ((displayFieldError st (validateFieldCore id v).2).ariaInvalid == "true")
      = !(validateFieldCore id v).1 := by
  have h := validateFieldCore_valid_iff id v
  by_cases hm : (validateFieldCore id v).2 = ""
  · have h1 : (validateFieldCore id v).1 = true := h.mpr hm
    simp [displayFieldError, hm, h1]
  · have h1 : (validateFieldCore id v).1 = false := by
      cases hb : (validateFieldCore id v).1
      · rfl
      · exact absurd (h.mp hb) hm
    simp [displayFieldError, hm, h1]

/-- Claim C7: submitting the form while some present field is invalid
makes the handler announce a correction request, focus the first field
marked invalid (the first present field the rule table rejects), and
return before the asynchronous send: the loading state is never entered
and the transport is not invoked. -/
theorem invalid_submit_aborts (f : ContactForm)
    (h : anyPresentFieldInvalid f = true) :
    (validateAndSubmitForm f).loadingStarted = false ∧
    (validateAndSubmitForm f).transportInvoked = false ∧
    (validateAndSubmitForm f).announcedCorrection = true ∧
    (validateAndSubmitForm f).focusedField = firstRuleInvalid f := by
  obtain ⟨nf, ef, mf, d, l, lab, r⟩ := f
  simp only [anyPresentFieldInvalid, Bool.or_eq_true] at h
  cases nf <;> cases ef <;> cases mf <;>
    simp_all [validateAndSubmitForm, validateFieldApply, getField, setField,
      validateField, firstAriaInvalid, firstRuleInvalid, ariaFlagTrue,
      fieldRuleInvalid, displayFlag_eq]
  all_goals (split_ifs <;> simp_all)

/-- Witness for C7 at the spec's abort scenario (name `Al`, email `bad`,
message `short`): the email field is the first invalid one. -/
theorem invalid_submit_aborts_case :
    anyPresentFieldInvalid c7Form = true ∧
    ((validateAndSubmitForm c7Form).loadingStarted = false ∧
     (validateAndSubmitForm c7Form).transportInvoked = false ∧
     (validateAndSubmitForm c7Form).announcedCorrection = true ∧
     (validateAndSubmitForm c7Form).focusedField = firstRuleInvalid c7Form) :=
  ⟨by decide, invalid_submit_aborts c7Form (by decide)⟩

theorem mem_classRemove (x c : String) (l : List String) :
    x ∈ classRemove l c ↔ x ∈ l ∧ ¬(x = c) := by
  simp [classRemove, List.mem_filter]

theorem mem_classAdd (x c : String) (l : List String) :
    x ∈ classAdd l c ↔ x ∈ l ∨ x = c := by
  unfold classAdd
  split_ifs with h
  · constructor
    · exact Or.inl
    · rintro (hx | rfl)
      · exact hx
      · exact h
  · simp [List.mem_append]

theorem mem_classToggle_ne (x c : String) (l : List String) (b : Bool)
    (h : ¬ x = c) :
    x ∈ classToggle l c b ↔ x ∈ l := by
  cases b <;> simp [classToggle, mem_classAdd, mem_classRemove, h]

theorem mem_classToggle_self (c : String) (l : List String) (b : Bool) :
    c ∈ classToggle l c b ↔ b = true := by
  cases b <;> simp [classToggle, mem_classAdd, mem_classRemove]

theorem sizeClasses_cleared (l : List String) :
    sizeClasses (classRemove (classRemove l "text-large") "text-extra-large") = [] := by
  refine List.filter_eq_nil_iff.mpr ?_
  intro a ha
  rw [mem_classRemove, mem_classRemove] at ha
  simp [ha.1.2, ha.2]

theorem setTextSize_step (st : PrefState) (s : String)
    (hs : s = "normal" ∨ s = "large" ∨ s = "extra-large") :
    sizeClasses (setTextSize st s).docClasses =
      if s = "normal" then [] else ["text-" ++ s] := by
  have hclear := sizeClasses_cleared st.docClasses
  have hmem1 : "text-large" ∉
      classRemove (classRemove st.docClasses "text-large") "text-extra-large" := by
    simp [mem_classRemove]
  have hmem2 : "text-extra-large" ∉
      classRemove (classRemove st.docClasses "text-large") "text-extra-large" := by
    simp [mem_classRemove]
  rcases hs with h | h | h <;> subst h
  · simp only [setTextSize, lsSetItem]
    simpa using hclear
  · simp only [sizeClasses] at hclear
    simp [setTextSize, lsSetItem, sizeClasses, classAdd, hmem1,
      List.filter_append, hclear]
  · simp only [sizeClasses] at hclear
    simp [setTextSize, lsSetItem, sizeClasses, classAdd, hmem2,
      List.filter_append, hclear]

/-- Claim C4: after any nonempty sequence of `setTextSize` calls over the
size vocabulary, at most one text-size style class is on the document
root and it is determined by the last size set: `text-large` or
`text-extra-large`, and none when the last size was `normal`. -/
theorem setTextSize_last_wins (st : PrefState) (front : List String) (lastSize : String)
    (hv : ∀ s ∈ front ++ [lastSize], s = "normal" ∨ s = "large" ∨ s = "extra-large") :
    sizeClasses (((front ++ [lastSize]).foldl setTextSize st).docClasses) =
      (if lastSize = "normal" then [] else ["text-" ++ lastSize]) := by
  rw [List.foldl_append]
  simp only [List.foldl_cons, List.foldl_nil]
  exact setTextSize_step _ lastSize (hv lastSize (by simp))

/-- Witness for C4: from a document root already carrying a stale
`text-large` class, the sequence normal-then-extra-large leaves exactly
the `text-extra-large` class. -/
theorem setTextSize_last_wins_case :
    (∀ s ∈ (["normal"] ++ ["extra-large"] : List String),
        s = "normal" ∨ s = "large" ∨ s = "extra-large") ∧
    sizeClasses (((["normal"] ++ ["extra-large"]).foldl setTextSize c4St).docClasses) =
      ["text-extra-large"] := by
  refine ⟨by decide, ?_⟩
  have h := setTextSize_last_wins c4St ["normal"] "extra-large" (by decide)
  simpa using h

theorem loadPrefsBody_ok (st : PrefState) (hthr : st.storageReadThrows = false) :
    loadPrefsBody st = Except.ok (loadPrefsApplied st) := by
  unfold loadPrefsBody lsGetItem
  rw [hthr]
  rfl

theorem storeLookup_update_self (s : List (String × String)) (k v : String) :
    storeLookup (storeUpdate s k v) k = some v := by
  induction s with
  | nil => simp [storeUpdate, storeLookup]
  | cons p t ih =>
      obtain ⟨k0, v0⟩ := p
      by_cases h : (k0 == k) = true <;> simp_all [storeUpdate, storeLookup]

theorem storeLookup_update_ne (s : List (String × String)) (k v key : String)
    (h : ¬(k = key)) :
    storeLookup (storeUpdate s k v) key = storeLookup s key := by
  induction s with
  | nil => simp_all [storeUpdate, storeLookup]
  | cons p t ih =>
      obtain ⟨k0, v0⟩ := p
      by_cases h0 : (k0 == k) = true <;> simp_all [storeUpdate, storeLookup]

/-- Claim C1: when reading durable storage throws, `loadUserPreferences`
returns normally (no exception escapes it, hence none escapes
initialization) and has applied the hard-coded fallback theme `dark` to
the document root. -/
theorem load_prefs_storage_failure_dark (st : PrefState)
    (h : st.storageReadThrows = true) :
    ∃ stout, loadUserPreferences st = Except.ok stout ∧
      stout.docThemeAttr = some "dark" := by
  refine ⟨updateThemeControls (setTheme st "dark") "dark", ?_, rfl⟩
  unfold loadUserPreferences loadPrefsBody lsGetItem
  rw [h]
  rfl

/-- Witness for C1 at the concrete state `c1St`. -/
theorem load_prefs_storage_failure_dark_case :
    c1St.storageReadThrows = true ∧
    (∃ stout, loadUserPreferences c1St = Except.ok stout ∧
      stout.docThemeAttr = some "dark") :=
  ⟨rfl, load_prefs_storage_failure_dark c1St rfl⟩

/-- Claim C8: at startup, each preference whose durable-storage entry is
missing falls back independently of the others: the applied theme is the
system media-query signal, text size stays at the hard default (no size
class), high contrast stays off (no class), and the reduced-motion class
on the rendered document follows the system media-query signal. -/
theorem startup_missing_storage_fallback (st : PrefState)
    (hthr : st.storageReadThrows = false) :
    ∃ stout, startupPrefs st = Except.ok stout ∧
      (storeLookup st.storage "theme" = none →
        stout.docThemeAttr = some (detectSystemTheme st)) ∧
      (storeLookup st.storage "textSize" = none →
        "text-large" ∉ stout.docClasses ∧ "text-extra-large" ∉ stout.docClasses) ∧
      (storeLookup st.storage "highContrast" = none →
        "high-contrast" ∉ stout.docClasses) ∧
      (storeLookup st.storage "reducedMotion" = none →
        ("reduce-motion" ∈ stout.docClasses ↔ st.prefersReducedMotion = true)) := by
  cases hrm : st.prefersReducedMotion
  · have hsetup : setupReducedMotion st = st := by
      simp [setupReducedMotion, hrm]
    refine ⟨loadPrefsApplied st, ?_, ?_, ?_, ?_, ?_⟩
    · unfold startupPrefs loadUserPreferences
      rw [hsetup, loadPrefsBody_ok st hthr]
    · intro h1
      simp [loadPrefsApplied, h1, jsStringOr, setTheme, setTextSize,
        setHighContrast, setReducedMotion, lsSetItem, updateThemeControls]
    · intro h2
      simp [loadPrefsApplied, h2, jsStringOr, setTheme, setTextSize,
        setHighContrast, setReducedMotion, lsSetItem, updateThemeControls,
        mem_classToggle_ne, mem_classToggle_self, mem_classRemove, mem_classAdd]
    · intro h3
      simp [loadPrefsApplied, h3, jsStringOr, setTheme, setTextSize,
        setHighContrast, setReducedMotion, lsSetItem, updateThemeControls,
        mem_classToggle_ne, mem_classToggle_self, mem_classRemove, mem_classAdd]
    · intro h4
      simp [loadPrefsApplied, h4, jsStringOr, setTheme, setTextSize,
        setHighContrast, setReducedMotion, lsSetItem, updateThemeControls,
        mem_classToggle_ne, mem_classToggle_self, mem_classRemove, mem_classAdd,
        hrm]
  · have hstor : (setupReducedMotion st).storage
        = storeUpdate st.storage "reducedMotion" "true" := by
      simp [setupReducedMotion, hrm, setReducedMotion, lsSetItem, classToggle, boolString]
    have hcls : (setupReducedMotion st).docClasses
        = classAdd st.docClasses "reduce-motion" := by
      simp [setupReducedMotion, hrm, setReducedMotion, lsSetItem, classToggle, boolString]
    have hthr2 : (setupReducedMotion st).storageReadThrows = false := by
      simp [setupReducedMotion, hrm, setReducedMotion, lsSetItem, classToggle, hthr]
    have hdark : (setupReducedMotion st).prefersDark = st.prefersDark := by
      simp [setupReducedMotion, hrm, setReducedMotion, lsSetItem, classToggle]
    have l1 : storeLookup (setupReducedMotion st).storage "theme"
        = storeLookup st.storage "theme" := by
      rw [hstor, storeLookup_update_ne _ _ _ _ (by decide)]
    have l2 : storeLookup (setupReducedMotion st).storage "textSize"
        = storeLookup st.storage "textSize" := by
      rw [hstor, storeLookup_update_ne _ _ _ _ (by decide)]
    have l3 : storeLookup (setupReducedMotion st).storage "highContrast"
        = storeLookup st.storage "highContrast" := by
      rw [hstor, storeLookup_update_ne _ _ _ _ (by decide)]
    have l4 : storeLookup (setupReducedMotion st).storage "reducedMotion"
        = some "true" := by
      rw [hstor]
      exact storeLookup_update_self _ _ _
    refine ⟨loadPrefsApplied (setupReducedMotion st), ?_, ?_, ?_, ?_, ?_⟩
    · unfold startupPrefs loadUserPreferences
      rw [loadPrefsBody_ok _ hthr2]
    · intro h1
      simp [loadPrefsApplied, l1, h1, jsStringOr, setTheme, setTextSize,
        setHighContrast, setReducedMotion, lsSetItem, updateThemeControls,
        detectSystemTheme, hdark]
    · intro h2
      simp [loadPrefsApplied, l2, h2, jsStringOr, setTheme, setTextSize,
        setHighContrast, setReducedMotion, lsSetItem, updateThemeControls,
        hcls, mem_classToggle_ne, mem_classToggle_self, mem_classRemove,
        mem_classAdd]
    · intro h3
      simp [loadPrefsApplied, l3, h3, jsStringOr, setTheme, setTextSize,
        setHighContrast, setReducedMotion, lsSetItem, updateThemeControls,
        hcls, mem_classToggle_ne, mem_classToggle_self, mem_classRemove,
        mem_classAdd]
    · intro h4
      simp [loadPrefsApplied, l4, jsStringOr, setTheme, setTextSize,
        setHighContrast, setReducedMotion, lsSetItem, updateThemeControls,
        hcls, mem_classToggle_ne, mem_classToggle_self, mem_classRemove,
        mem_classAdd, hrm]

/-- Witness for C8 at the concrete state `c8St` (empty storage, light
system theme, reduced-motion signal on): every per-preference implication
fires. -/
theorem startup_missing_storage_fallback_case :
    c8St.storageReadThrows = false ∧
    (∃ stout, startupPrefs c8St = Except.ok stout ∧
      (storeLookup c8St.storage "theme" = none →
        stout.docThemeAttr = some (detectSystemTheme c8St)) ∧
      (storeLookup c8St.storage "textSize" = none →
        "text-large" ∉ stout.docClasses ∧ "text-extra-large" ∉ stout.docClasses) ∧
      (storeLookup c8St.storage "highContrast" = none →
        "high-contrast" ∉ stout.docClasses) ∧
      (storeLookup c8St.storage "reducedMotion" = none →
        ("reduce-motion" ∈ stout.docClasses ↔ c8St.prefersReducedMotion = true))) :=
  ⟨rfl, startup_missing_storage_fallback c8St rfl⟩
